import Mathlib

/-!
Verification of the resilience layer of the grok2api gateway: the
Retry/Failover Executor (src/app/services/grok/retry.py), the model
registry pool resolution (src/app/services/grok/model.py), the bearer-key
check (src/app/core/auth.py) and the Workers-compatible admin login
(src/app/api/v1/admin.py).

The Python code is shallowly embedded: pure logic becomes Lean functions,
an `async` operation becomes a function from the invocation index to an
`Except` value, a raised exception becomes an `Exc` record of the facts the
retry driver inspects about it, logging / sleeping / the on_retry callback
are effect-only (they do not change control flow) and are omitted, and
float arithmetic on backoff delays is modelled by exact rationals.
-/

/-- What `retry.py` can observe about a raised exception:
whether it is one of the exception classes `asyncio.TimeoutError`,
`ConnectionError`, `OSError` (checked by `_is_network_error`), whether it
is an `UpstreamException` together with the `status` and `error` entries of
its `details` dict (an absent or non-string entry is `none`), and its
`str(e)` rendering. -/
structure Exc where
  is_net_type : Bool
  is_upstream : Bool
  details_status : Option Int
  details_error : Option String
  str_repr : String
deriving DecidableEq, Repr

/-- Snapshot of the retry configuration read by `RetryContext.__init__` and
`retry_on_status`: `RetryConfig.get_max_retry`, `RetryConfig.get_retry_codes`
and `RetryConfig.get_retry_on_network_error`. -/
structure RetryCfg where
  max_retry : Nat
  retry_codes : List Int
  retry_on_network_error : Bool

namespace RetryConfig

/-- The keyword list of `RetryConfig.get_network_error_keywords`. -/
def get_network_error_keywords : List String :=
  [ "connection reset", "recv failure", "connection aborted",
    "connection refused", "connection closed", "connection error",
    "timed out", "timeout", "network is unreachable", "broken pipe",
    "tls", "ssl", "eof", "curl" ]

/-- `RetryConfig.get_backoff_delay`, with the three config reads passed as
arguments and Python float arithmetic modelled over the rationals:
clamp base to at least 0 and factor to at least 1, take
`steps = max(0, attempt - 1)`, `delay = base * factor ** steps`, and cap at
`max_delay` only when the (clamped) cap is positive. -/
def get_backoff_delay (base factor max_delay : ℚ) (attempt : ℤ) : ℚ :=
  let b := max 0 base
  let f := max 1 factor
  let m := max 0 max_delay
  let steps := (max 0 (attempt - 1)).toNat
  let delay := b * f ^ steps
  if 0 < m then min delay m else delay

end RetryConfig

/-- `_get_error_message`: for an `UpstreamException` whose `details` holds a
non-empty string under `"error"`, that string; otherwise `str(e)`. -/
def get_error_message (e : Exc) : String :=
  if e.is_upstream then
    match e.details_error with
    | some raw => if raw = "" then e.str_repr else raw
    | none => e.str_repr
  else e.str_repr

/-- The default `extract_status` closure of `retry_on_status`: the
`"status"` entry of an `UpstreamException`'s `details`, else `None`. -/
def default_extract_status (e : Exc) : Option Int :=
  if e.is_upstream then e.details_status else none

/-- Whether the first character list occurs at the very start of the
second (used to model Python's `in` on strings). -/
def isSubAt : List Char → List Char → Bool
  | [], _ => true
  | _ :: _, [] => false
  | a :: as, b :: bs => a == b && isSubAt as bs

/-- Whether the first character list occurs contiguously anywhere inside
the second: Python's `needle in haystack`. -/
def containsSub : List Char → List Char → Bool
  | n, [] => isSubAt n []
  | n, b :: bs => isSubAt n (b :: bs) || containsSub n bs

/-- Python's `needle in haystack` on strings. -/
def containsSubStr (needle haystack : String) : Bool :=
  containsSub needle.data haystack.data

/-- Python's `str.lower`, character by character (the messages and keywords
involved are ASCII). -/
def str_lower (s : String) : String := ⟨s.data.map Char.toLower⟩

/-- `_is_network_error`: true for the timeout / connection / OS exception
classes, otherwise a case-insensitive substring match of the error message
against the network keyword list (an empty message never matches). -/
def is_network_error (e : Exc) : Bool :=
  if e.is_net_type then true
  else
    let msg := str_lower (get_error_message e)
    if msg = "" then false
    else RetryConfig.get_network_error_keywords.any fun k => containsSubStr k msg

/-- Outcome of one `retry_on_status` call: the value returned or the
exception finally re-raised, together with how many times the wrapped
operation was invoked. -/
structure RunResult (α : Type) where
  result : Except Exc α
  calls : Nat
deriving Repr

/-- The `while ctx.attempt <= ctx.max_retry` loop of `retry_on_status`.
`attempt` is `ctx.attempt` (incremented by `RetryContext.record_error`
before `should_retry` compares it with `max_retry`, hence the `attempt + 1`
comparisons), `calls` counts invocations so far and is the index handed to
the operation, and `fuel` is a termination bound kept equal to
`max_retry + 1 - attempt` by every caller; the `none` it returns on fuel 0
is proved unreachable (`retryLoop_total`). `asyncio.sleep`, logging and the
`on_retry` callback do not affect control flow and are omitted. -/
def retryLoop {α : Type} (cfg : RetryCfg) (op : Nat → Except Exc α)
    (extract : Exc → Option Int) (attempt calls fuel : Nat) :
    Option (RunResult α) :=
  match fuel with
  | 0 => none
  | fuel + 1 =>
    match op calls with
    | Except.ok a => some ⟨Except.ok a, calls + 1⟩
    | Except.error e =>
      match extract e with
      | none =>
        if cfg.retry_on_network_error && is_network_error e then
          if attempt + 1 ≤ cfg.max_retry then
            retryLoop cfg op extract (attempt + 1) (calls + 1) fuel
          else some ⟨Except.error e, calls + 1⟩
        else some ⟨Except.error e, calls + 1⟩
      | some status =>
        if attempt + 1 < cfg.max_retry ∧ status ∈ cfg.retry_codes then
          retryLoop cfg op extract (attempt + 1) (calls + 1) fuel
        else some ⟨Except.error e, calls + 1⟩

/-- `retry_on_status(func, extract_status=extract)`: run the loop from
`ctx.attempt = 0` with no invocations yet. -/
def retry_on_status {α : Type} (cfg : RetryCfg) (op : Nat → Except Exc α)
    (extract : Exc → Option Int) : Option (RunResult α) :=
  retryLoop cfg op extract 0 0 (cfg.max_retry + 1)

/-- The loop always terminates with an answer (never hits the fuel bound)
and performs at most `fuel` further invocations. -/
theorem retryLoop_total {α : Type} (cfg : RetryCfg) (op : Nat → Except Exc α)
    (extract : Exc → Option Int) :
    ∀ fuel attempt calls, attempt ≤ cfg.max_retry →
      attempt + fuel = cfg.max_retry + 1 →
      ∃ r, retryLoop cfg op extract attempt calls fuel = some r ∧
        r.calls ≤ calls + fuel := by
  intro fuel
  induction fuel with
  | zero => intro attempt calls h1 h2; omega
  | succ n ih =>
    intro attempt calls h1 h2
    rw [retryLoop]
    cases hop : op calls with
    | ok a =>
      exact ⟨⟨Except.ok a, calls + 1⟩, rfl,
        by show calls + 1 ≤ calls + (n + 1); omega⟩
    | error e =>
      cases hex : extract e with
      | none =>
        by_cases hb : (cfg.retry_on_network_error && is_network_error e) = true
        · by_cases h5 : attempt + 1 ≤ cfg.max_retry
          · obtain ⟨r, hr, hc⟩ := ih (attempt + 1) (calls + 1) h5 (by omega)
            exact ⟨r, by simp [hex, hb, h5, hr], by omega⟩
          · exact ⟨⟨Except.error e, calls + 1⟩, by simp [hex, hb, h5],
              by show calls + 1 ≤ calls + (n + 1); omega⟩
        · exact ⟨⟨Except.error e, calls + 1⟩, by simp [hex, hb],
            by show calls + 1 ≤ calls + (n + 1); omega⟩
      | some status =>
        by_cases h6 : attempt + 1 < cfg.max_retry ∧ status ∈ cfg.retry_codes
        · obtain ⟨r, hr, hc⟩ := ih (attempt + 1) (calls + 1) (by omega) (by omega)
          exact ⟨r, by simp [hex, h6, hr], by omega⟩
        · exact ⟨⟨Except.error e, calls + 1⟩,
            by simp only [hex]; rw [if_neg h6],
            by show calls + 1 ≤ calls + (n + 1); omega⟩

/-- When the loop ends in an error, that error is the one thrown by the
final invocation of the operation. -/
theorem retryLoop_last_error {α : Type} (cfg : RetryCfg)
    (op : Nat → Except Exc α) (extract : Exc → Option Int) :
    ∀ fuel attempt calls r e,
      retryLoop cfg op extract attempt calls fuel = some r →
      r.result = Except.error e → op (r.calls - 1) = Except.error e := by
  intro fuel
  induction fuel with
  | zero => intro attempt calls r e h; simp [retryLoop] at h
  | succ n ih =>
    intro attempt calls r e h hres
    rw [retryLoop] at h
    cases hop : op calls with
    | ok a =>
      simp only [hop] at h
      cases h
      simp at hres
    | error e2 =>
      simp only [hop] at h
      cases hex : extract e2 with
      | none =>
        simp only [hex] at h
        by_cases hb : (cfg.retry_on_network_error && is_network_error e2) = true
        · by_cases h5 : attempt + 1 ≤ cfg.max_retry
          · simp only [hb, h5, if_true] at h
            exact ih (attempt + 1) (calls + 1) r e h hres
          · simp only [hb, h5, if_true, if_false] at h
            cases h
            simp only at hres
            cases hres
            simpa using hop
        · simp only [hb, if_false, Bool.false_eq_true] at h
          cases h
          simp only at hres
          cases hres
          simpa using hop
      | some status =>
        simp only [hex] at h
        by_cases h6 : attempt + 1 < cfg.max_retry ∧ status ∈ cfg.retry_codes
        · simp only [h6, if_true] at h
          exact ih (attempt + 1) (calls + 1) r e h hres
        · simp only [h6, if_false] at h
          cases h
          simp only at hres
          cases hres
          simpa using hop

/-- An `UpstreamException` carrying HTTP status 429 in its details. -/
def exc429 : Exc :=
  { is_net_type := false, is_upstream := true, details_status := some 429,
    details_error := none, str_repr := "UpstreamException: status 429" }

/-- An operation that fails with status 429 on every invocation. -/
def op429 : Nat → Except Exc Unit := fun _ => Except.error exc429

/-- C1: with maxRetry = 3 and retryStatusCodes = {429}, an operation that
always fails with extracted status 429 is invoked exactly 3 times — not the
4 (= maxRetry + 1) the claim states — because `RetryContext.record_error`
increments `ctx.attempt` before `should_retry` compares it with
`max_retry`; the propagated error does carry status 429.  Evidence for the
code_bug verdict (the network-error path of the same function uses the
inclusive comparison and does perform maxRetry + 1 invocations). -/
theorem claim_C1_three_invocations :
    retry_on_status ⟨3, [429], true⟩ op429 default_extract_status
      = some ⟨Except.error exc429, 3⟩ ∧
    default_extract_status exc429 = some 429 ∧ (3 : Nat) ≠ 4 :=
  ⟨rfl, rfl, by decide⟩

/-- C2: for every configuration and every operation, one `retry_on_status`
call invokes the operation at most maxRetry + 1 times (and always
terminates with an answer). -/
theorem claim_C2_attempts_bounded {α : Type} (cfg : RetryCfg)
    (op : Nat → Except Exc α) (extract : Exc → Option Int) :
    ∃ r, retry_on_status cfg op extract = some r ∧
      r.calls ≤ cfg.max_retry + 1 := by
  obtain ⟨r, hr, hc⟩ :=
    retryLoop_total cfg op extract (cfg.max_retry + 1) 0 0 (by omega) (by omega)
  exact ⟨r, hr, by omega⟩

/-- C5: whenever `retry_on_status` ends by re-raising, the exception raised
is identically the one thrown by the final invocation of the operation. -/
theorem claim_C5_last_error_propagates {α : Type} (cfg : RetryCfg)
    (op : Nat → Except Exc α) (extract : Exc → Option Int)
    (r : RunResult α) (e : Exc)
    (hrun : retry_on_status cfg op extract = some r)
    (hres : r.result = Except.error e) :
    op (r.calls - 1) = Except.error e :=
  retryLoop_last_error cfg op extract (cfg.max_retry + 1) 0 0 r e hrun hres

/-- Witness for C5 at a concrete input: the run of `op429` under
maxRetry = 3 ends after 3 calls with the error of invocation 2. -/
theorem claim_C5_witness : op429 2 = Except.error exc429 :=
  claim_C5_last_error_propagates ⟨3, [429], true⟩ op429 default_extract_status
    ⟨Except.error exc429, 3⟩ exc429 rfl rfl

/-- A head match survives mapping a function over both lists. -/
theorem isSubAt_map (f : Char → Char) :
    ∀ n h, isSubAt n h = true → isSubAt (n.map f) (h.map f) = true := by
  intro n
  induction n with
  | nil => intro h _; rfl
  | cons a as ih =>
    intro h hs
    cases h with
    | nil => simp [isSubAt] at hs
    | cons b bs =>
      simp only [isSubAt, Bool.and_eq_true, beq_iff_eq] at hs
      simp only [List.map_cons, isSubAt, Bool.and_eq_true, beq_iff_eq]
      exact ⟨by rw [hs.1], ih bs hs.2⟩

/-- A substring occurrence survives mapping a function over both lists. -/
theorem containsSub_map (f : Char → Char) :
    ∀ n h, containsSub n h = true → containsSub (n.map f) (h.map f) = true := by
  intro n h
  induction h with
  | nil =>
    intro hc
    cases n with
    | nil => rfl
    | cons a as => simp [containsSub, isSubAt] at hc
  | cons b bs ih =>
    intro hc
    simp only [containsSub, Bool.or_eq_true] at hc
    simp only [List.map_cons, containsSub, Bool.or_eq_true]
    cases hc with
    | inl hs => exact Or.inl (by simpa using isSubAt_map f n (b :: bs) hs)
    | inr hs => exact Or.inr (ih hs)

/-- A non-empty needle never occurs in the empty haystack. -/
theorem containsSub_nil_of_ne (a : Char) (as : List Char) :
    containsSub (a :: as) [] = false := rfl

/-- An exception whose error message contains "timeout" is classified as a
network error by `_is_network_error`. -/
theorem timeout_is_network_error (e : Exc)
    (h : containsSubStr "timeout" (get_error_message e) = true) :
    is_network_error e = true := by
  unfold is_network_error
  cases hn : e.is_net_type with
  | true => rfl
  | false =>
    simp only [if_false, Bool.false_eq_true]
    have hlow : containsSubStr "timeout" (str_lower (get_error_message e)) = true := by
      have := containsSub_map Char.toLower "timeout".data (get_error_message e).data h
      simpa [containsSubStr, str_lower] using this
    have hne : str_lower (get_error_message e) ≠ "" := by
      intro hemp
      rw [hemp] at hlow
      simp [containsSubStr, containsSub, isSubAt] at hlow
    rw [if_neg hne]
    refine List.any_eq_true.mpr ⟨"timeout", ?_, hlow⟩
    simp [RetryConfig.get_network_error_keywords]

/-- When every invocation fails with a status-less network-classified
error and network retry is on, the loop spends its whole budget: starting
at `attempt` with `fuel = max_retry + 1 - attempt` it performs exactly
`fuel` more invocations and re-raises the error of the last one. -/
theorem retryLoop_network_exhaust {α : Type} (cfg : RetryCfg)
    (op : Nat → Except Exc α) (errs : Nat → Exc) (extract : Exc → Option Int)
    (hop : ∀ n, op n = Except.error (errs n))
    (hrn : cfg.retry_on_network_error = true)
    (hex : ∀ n, extract (errs n) = none)
    (hnet : ∀ n, is_network_error (errs n) = true) :
    ∀ fuel attempt calls, attempt ≤ cfg.max_retry →
      attempt + fuel = cfg.max_retry + 1 →
      retryLoop cfg op extract attempt calls fuel
        = some ⟨Except.error (errs (calls + fuel - 1)), calls + fuel⟩ := by
  intro fuel
  induction fuel with
  | zero => intro attempt calls h1 h2; omega
  | succ n ih =>
    intro attempt calls h1 h2
    rw [retryLoop]
    simp only [hop, hex, hrn, hnet, Bool.true_and, if_true]
    by_cases h5 : attempt + 1 ≤ cfg.max_retry
    · rw [if_pos h5, ih (attempt + 1) (calls + 1) h5 (by omega)]
      have e1 : calls + 1 + n - 1 = calls + (n + 1) - 1 := by omega
      have e2 : calls + 1 + n = calls + (n + 1) := by omega
      rw [e1, e2]
    · rw [if_neg h5]
      have : n = 0 := by omega
      subst this
      simp

/-- C3: with retryOnNetworkError = true and maxRetry = 2, an operation
that always fails with an exception carrying no extractable status code
but whose message contains "timeout" is retried exactly 2 times — 3
invocations in all — and the failure of the final (third) invocation is
what propagates. -/
theorem claim_C3_network_timeout_retries (α : Type) (codes : List Int)
    (op : Nat → Except Exc α) (errs : Nat → Exc)
    (hop : ∀ n, op n = Except.error (errs n))
    (hex : ∀ n, default_extract_status (errs n) = none)
    (hmsg : ∀ n, containsSubStr "timeout" (get_error_message (errs n)) = true) :
    retry_on_status ⟨2, codes, true⟩ op default_extract_status
      = some ⟨Except.error (errs 2), 3⟩ := by
  have h := retryLoop_network_exhaust ⟨2, codes, true⟩ op errs
    default_extract_status hop rfl hex
    (fun n => timeout_is_network_error (errs n) (hmsg n)) 3 0 0
    (Nat.zero_le _) rfl
  simpa [retry_on_status] using h

/-- A status-less exception whose message mentions a read timeout. -/
def c3err : Exc :=
  { is_net_type := false, is_upstream := false, details_status := none,
    details_error := none, str_repr := "Read timeout after 30s" }

/-- Witness for C3 at a concrete input: the constant `c3err` failure under
maxRetry = 2 yields exactly 3 invocations and re-raises `c3err`. -/
theorem claim_C3_witness :
    retry_on_status ⟨2, [401, 429, 403], true⟩
      (fun _ => (Except.error c3err : Except Exc Unit))
      default_extract_status = some ⟨Except.error c3err, 3⟩ :=
  claim_C3_network_timeout_retries Unit [401, 429, 403]
    (fun _ => Except.error c3err) (fun _ => c3err)
    (fun _ => rfl) (fun _ => rfl)
    (fun _ =>
      (by decide : containsSubStr "timeout" (get_error_message c3err) = true))

/-- C4: for backoffBase = 1, backoffFactor = 2, backoffMax = 30 the delays
for attempts 1..6 are exactly 1, 2, 4, 8, 16, 30; and for every
non-negative base, factor at least 1, positive cap and attempt number at
least 1, the delay equals min(base * factor ^ (attempt - 1), cap). -/
theorem claim_C4_backoff :
    (RetryConfig.get_backoff_delay 1 2 30 1 = 1 ∧
     RetryConfig.get_backoff_delay 1 2 30 2 = 2 ∧
     RetryConfig.get_backoff_delay 1 2 30 3 = 4 ∧
     RetryConfig.get_backoff_delay 1 2 30 4 = 8 ∧
     RetryConfig.get_backoff_delay 1 2 30 5 = 16 ∧
     RetryConfig.get_backoff_delay 1 2 30 6 = 30) ∧
    (∀ base factor max_delay : ℚ, ∀ attempt : ℤ,
      0 ≤ base → 1 ≤ factor → 0 < max_delay → 1 ≤ attempt →
      RetryConfig.get_backoff_delay base factor max_delay attempt
        = min (base * factor ^ (attempt - 1).toNat) max_delay) := by
  constructor
  · have t2 : ((2 : ℤ)).toNat = 2 := rfl
    have t3 : ((3 : ℤ)).toNat = 3 := rfl
    have t4 : ((4 : ℤ)).toNat = 4 := rfl
    have t5 : ((5 : ℤ)).toNat = 5 := rfl
    refine ⟨?_, ?_, ?_, ?_, ?_, ?_⟩ <;>
      simp only [RetryConfig.get_backoff_delay, max_def, min_def] <;>
      norm_num [t2, t3, t4, t5]
  · intro base factor max_delay attempt hb hf hm ha
    have h1 : max (0 : ℚ) base = base := max_eq_right hb
    have h2 : max (1 : ℚ) factor = factor := max_eq_right hf
    have h3 : max (0 : ℚ) max_delay = max_delay := max_eq_right hm.le
    have h4 : max (0 : ℤ) (attempt - 1) = attempt - 1 := max_eq_right (by omega)
    simp only [RetryConfig.get_backoff_delay, h1, h2, h3, h4]
    rw [if_pos hm]

/-- Witness for C4 at a concrete input: at attempt 2 of the default-like
configuration the general formula gives min(1 * 2 ^ 1, 30). -/
theorem claim_C4_witness :
    RetryConfig.get_backoff_delay 1 2 30 2
      = min ((1 : ℚ) * 2 ^ ((2 : ℤ) - 1).toNat) 30 :=
  claim_C4_backoff.2 1 2 30 2 (by norm_num) (by norm_num) (by norm_num)
    (by norm_num)

/-- The `Tier` enum of `model.py`. -/
inductive Tier where
  | BASIC
  | SUPER
deriving DecidableEq, Repr

/-- The `Cost` enum of `model.py`. -/
inductive Cost where
  | LOW
  | HIGH
deriving DecidableEq, Repr

/-- One raw entry of `ModelService.DEFAULT_MODELS` (the fields
`_build_models` reads; `rate_limit_model` is carried but unused there). -/
structure RawModel where
  id : String
  grok_model : String
  model_mode : String
  rate_limit_model : String
  display_name : String
  description : String
  tier : String
  cost : String
  is_image : Bool
  is_video : Bool

/-- `ModelService._safe_enum(Tier, value, Tier.BASIC)`: parse the tier
string, falling back to BASIC on anything else. -/
def tier_of_string (s : String) : Tier :=
  if s = "basic" then Tier.BASIC
  else if s = "super" then Tier.SUPER
  else Tier.BASIC

/-- `ModelService._safe_enum(Cost, value, Cost.LOW)`. -/
def cost_of_string (s : String) : Cost :=
  if s = "low" then Cost.LOW
  else if s = "high" then Cost.HIGH
  else Cost.LOW

/-- The `ModelInfo` pydantic model of `model.py`. -/
structure ModelInfo where
  model_id : String
  grok_model : String
  model_mode : String
  tier : Tier
  cost : Cost
  display_name : String
  description : String
  is_video : Bool
  is_image : Bool
deriving DecidableEq, Repr

/-- One step of `ModelService._build_models`: an empty / missing
`model_mode` falls back to `"MODEL_MODE_FAST"`, tier and cost parse with
their defaults. -/
def build_model (r : RawModel) : ModelInfo :=
  { model_id := r.id
    grok_model := r.grok_model
    model_mode := if r.model_mode = "" then "MODEL_MODE_FAST" else r.model_mode
    tier := tier_of_string r.tier
    cost := cost_of_string r.cost
    display_name := r.display_name
    description := r.description
    is_video := r.is_video
    is_image := r.is_image }

namespace ModelService

/-- `ModelService.DEFAULT_ALIASES`. -/
def DEFAULT_ALIASES : List (String × String) :=
  [("grok-imagine", "grok-imagine-1.0")]

/-- `ModelService.DEFAULT_MODELS`, the built-in registry used when
`shared/models.json` is absent (it is not part of the repository's source
files, so the fallback is the registry contents). -/
def DEFAULT_MODELS : List RawModel :=
  [ ⟨"grok-3", "grok-3", "MODEL_MODE_AUTO", "grok-3", "Grok 3",
      "Standard Grok 3 model", "basic", "low", false, false⟩,
    ⟨"grok-3-fast", "grok-3", "MODEL_MODE_FAST", "grok-3", "Grok 3 Fast",
      "Fast and efficient Grok 3 model", "basic", "low", false, false⟩,
    ⟨"grok-4", "grok-4", "MODEL_MODE_AUTO", "grok-4", "Grok 4",
      "Standard Grok 4 model", "basic", "low", false, false⟩,
    ⟨"grok-4-mini", "grok-4-mini-thinking-tahoe",
      "MODEL_MODE_GROK_4_MINI_THINKING", "grok-4-mini-thinking-tahoe",
      "Grok 4 Mini", "Grok 4 Mini Thinking model", "basic", "low",
      false, false⟩,
    ⟨"grok-4-fast", "grok-4", "MODEL_MODE_FAST", "grok-4", "Grok 4 Fast",
      "Fast version of Grok 4", "basic", "low", false, false⟩,
    ⟨"grok-4-fast-expert", "grok-4-mini-thinking-tahoe",
      "MODEL_MODE_EXPERT", "grok-4-mini-thinking-tahoe",
      "Grok 4 Fast Expert", "Expert mode of Grok 4 Mini Thinking",
      "basic", "high", false, false⟩,
    ⟨"grok-4-expert", "grok-4", "MODEL_MODE_EXPERT", "grok-4",
      "Grok 4 Expert", "Full Grok 4 model with expert mode capabilities",
      "basic", "high", false, false⟩,
    ⟨"grok-4-heavy", "grok-4", "MODEL_MODE_HEAVY", "grok-4",
      "Grok 4 Heavy",
      "Most powerful Grok model. Requires Super Token for access.",
      "super", "high", false, false⟩,
    ⟨"grok-4.1", "grok-4-1-thinking-1129", "MODEL_MODE_AUTO",
      "grok-4-1-thinking-1129", "Grok 4.1", "Grok 4.1 model", "basic",
      "low", false, false⟩,
    ⟨"grok-4.1-thinking", "grok-4-1-thinking-1129",
      "MODEL_MODE_GROK_4_1_THINKING", "grok-4-1-thinking-1129",
      "Grok 4.1 Thinking",
      "Grok 4.1 model with advanced thinking and tool capabilities",
      "basic", "high", false, false⟩,
    ⟨"grok-4.20-beta", "grok-420", "MODEL_MODE_GROK_420", "grok-420",
      "Grok 4.20 Beta", "Grok 4.20 beta model", "basic", "low",
      false, false⟩,
    ⟨"grok-imagine-1.0", "grok-3", "MODEL_MODE_FAST", "grok-3",
      "Grok Imagine 1.0", "Image generation model", "basic", "high",
      false, true⟩,
    ⟨"grok-imagine-1.0-video", "grok-3", "MODEL_MODE_FAST", "grok-3",
      "Grok Imagine 1.0 Video", "Video generation model", "basic", "high",
      true, false⟩,
    ⟨"grok-imagine-0.9", "grok-3", "MODEL_MODE_FAST", "grok-3",
      "Grok Imagine 0.9",
      "Image and video generation model. Supports text-to-image and image-to-video generation.",
      "basic", "high", true, true⟩ ]

/-- `ModelService.MODELS` as initialised from the built-in fallback. -/
def MODELS : List ModelInfo := DEFAULT_MODELS.map build_model

/-- `ModelService.ALIASES.get(model_id)`. -/
def alias_lookup (model_id : String) : Option String :=
  (DEFAULT_ALIASES.find? fun p => p.1 = model_id).map Prod.snd

/-- `ModelService.normalize`: resolve an alias, else the id itself. -/
def normalize (model_id : String) : String :=
  (alias_lookup model_id).getD model_id

/-- `ModelService.get`: normalize, then look the id up in `_map` (the
model ids are pairwise distinct, so the first-match lookup agrees with the
Python dict built from the list). -/
def get (model_id : String) : Option ModelInfo :=
  MODELS.find? fun m => m.model_id = normalize model_id

/-- `ModelService.pool_for_model`: the `ssoSuper` pool for a known model
of tier SUPER, the `ssoBasic` pool otherwise. -/
def pool_for_model (model_id : String) : String :=
  match get model_id with
  | some m => if m.tier = Tier.SUPER then "ssoSuper" else "ssoBasic"
  | none => "ssoBasic"

end ModelService

/-- Modelled from the spec: `ValidationException` (raised by
`ModelService.to_grok`, defined in `app/core/exceptions.py` which is not
among the repository's source files) is a plain application error — per the
spec's error taxonomy it is distinct from the upstream-error kind and from
the transient network kind, so it is not an `UpstreamException`, not a
timeout / connection / OS exception, and its `str(e)` is the message it was
raised with. -/
def validation_exc (model_id : String) : Exc :=
  { is_net_type := false, is_upstream := false, details_status := none,
    details_error := none, str_repr := "Invalid model ID: " ++ model_id }

namespace ModelService

/-- `ModelService.to_grok`: the upstream model name and mode of a known
model, otherwise the `ValidationException` of `model.py` line 286. -/
def to_grok (model_id : String) : Except Exc (String × String) :=
  match get model_id with
  | none => Except.error (validation_exc model_id)
  | some m => Except.ok (m.grok_model, m.model_mode)

end ModelService

/-- C6 counterexample: `pool_for_model` maps `grok-4-heavy` (which is of
tier SUPER in the registry) to the pool named `ssoSuper`, not to `super`
(nor `basic`) as the claim states. -/
theorem claim_C6_counterexample :
    ModelService.pool_for_model "grok-4-heavy" ≠ "super" ∧
    ModelService.pool_for_model "grok-4-heavy" ≠ "basic" ∧
    (ModelService.get "grok-4-heavy").map ModelInfo.tier = some Tier.SUPER :=
  ⟨by decide, by decide, rfl⟩

/-- C6 amended: the registry maps `grok-4-heavy` (tier SUPER) to the pool
named `ssoSuper`, and every model identifier resolves to either the
`ssoBasic` or the `ssoSuper` pool. -/
theorem claim_C6_pool_mapping :
    ModelService.pool_for_model "grok-4-heavy" = "ssoSuper" ∧
    (ModelService.get "grok-4-heavy").map ModelInfo.tier = some Tier.SUPER ∧
    ∀ model_id : String,
      ModelService.pool_for_model model_id = "ssoBasic" ∨
      ModelService.pool_for_model model_id = "ssoSuper" := by
  refine ⟨rfl, rfl, ?_⟩
  intro model_id
  cases h : ModelService.get model_id with
  | none => exact Or.inl (by simp [ModelService.pool_for_model, h])
  | some m =>
    by_cases ht : m.tier = Tier.SUPER
    · exact Or.inr (by simp [ModelService.pool_for_model, h, ht])
    · exact Or.inl (by simp [ModelService.pool_for_model, h, ht])

/-- C10: `pool_for_model` is total — on every input string it returns
either `ssoBasic` or `ssoSuper`, and on every identifier absent from the
registry it returns `ssoBasic` (unknown models route to the basic pool
rather than being rejected at pool resolution). -/
theorem claim_C10_pool_total :
    (∀ model_id : String,
      ModelService.pool_for_model model_id = "ssoBasic" ∨
      ModelService.pool_for_model model_id = "ssoSuper") ∧
    (∀ model_id : String, ModelService.get model_id = none →
      ModelService.pool_for_model model_id = "ssoBasic") := by
  constructor
  · intro model_id
    cases h : ModelService.get model_id with
    | none => exact Or.inl (by simp [ModelService.pool_for_model, h])
    | some m =>
      by_cases ht : m.tier = Tier.SUPER
      · exact Or.inr (by simp [ModelService.pool_for_model, h, ht])
      · exact Or.inl (by simp [ModelService.pool_for_model, h, ht])
  · intro model_id h
    simp [ModelService.pool_for_model, h]

/-- Witness for C10 at a concrete input: a model id that is in no way in
the registry resolves to the basic pool. -/
theorem claim_C10_witness :
    ModelService.pool_for_model "totally-unknown" = "ssoBasic" :=
  claim_C10_pool_total.2 "totally-unknown" rfl

/-- The always-failing operation obtained by converting the unknown model
id `grok-timeout` to upstream parameters on every invocation. -/
def c7op : Nat → Except Exc (String × String) :=
  fun _ => ModelService.to_grok "grok-timeout"

/-- C7 counterexample: `grok-timeout` is not in the registry, so `to_grok`
fails with the ValidationException, but because the exception's message
"Invalid model ID: grok-timeout" contains the network keyword "timeout",
`retry_on_status` (with the default config maxRetry = 1,
retryOnNetworkError = true) classifies it as a network error and retries:
2 invocations, not the single one the claim states. -/
theorem claim_C7_counterexample :
    ModelService.get "grok-timeout" = none ∧
    retry_on_status ⟨1, [401, 429, 403], true⟩ c7op default_extract_status
      = some ⟨Except.error (validation_exc "grok-timeout"), 2⟩ ∧
    (2 : Nat) ≠ 1 :=
  ⟨rfl, rfl, by decide⟩

/-- C7 amended: for every model identifier absent (after alias
normalization) from the registry, `to_grok` fails with the
ValidationException, and — provided `_is_network_error` does not classify
that exception as a network error, i.e. the lower-cased message
"invalid model id: ..." contains none of the network keywords — the
failure is never retried under `retry_on_status`: for every retry
configuration the request fails after exactly one invocation with that
same exception. -/
theorem claim_C7_validation_not_retried (model_id : String)
    (hm : ModelService.get model_id = none)
    (hnet : is_network_error (validation_exc model_id) = false) :
    ModelService.to_grok model_id = Except.error (validation_exc model_id) ∧
    ∀ cfg : RetryCfg,
      retry_on_status cfg (fun _ => ModelService.to_grok model_id)
        default_extract_status
        = some ⟨Except.error (validation_exc model_id), 1⟩ := by
  have hop : ModelService.to_grok model_id
      = Except.error (validation_exc model_id) := by
    unfold ModelService.to_grok
    rw [hm]
  refine ⟨hop, ?_⟩
  intro cfg
  unfold retry_on_status
  rw [retryLoop]
  simp only [hop]
  have hext : default_extract_status (validation_exc model_id) = none := rfl
  simp [hext, hnet]

/-- Witness for C7 at a concrete input: the unknown id `unknown-model`
(whose message matches no network keyword) fails after exactly one
invocation under the default retry configuration. -/
theorem claim_C7_witness :
    ModelService.to_grok "unknown-model"
      = Except.error (validation_exc "unknown-model") ∧
    retry_on_status ⟨1, [401, 429, 403], true⟩
      (fun _ => ModelService.to_grok "unknown-model") default_extract_status
      = some ⟨Except.error (validation_exc "unknown-model"), 1⟩ :=
  ⟨(claim_C7_validation_not_retried "unknown-model" rfl (by decide)).1,
   (claim_C7_validation_not_retried "unknown-model" rfl (by decide)).2
     ⟨1, [401, 429, 403], true⟩⟩

/-- What `verify_api_key` returns into `request.state.key_info`: the
Python dicts `{"key": ..., "name": ..., "is_admin": ...}`. -/
structure KeyInfo where
  key : Option String
  name : String
  is_admin : Bool
deriving DecidableEq, Repr

/-- The anonymous development-mode identity of `auth.py` line 38. -/
def anonymousKeyInfo : KeyInfo :=
  { key := none, name := "Anonymous", is_admin := true }

/-- `verify_api_key` of `auth.py`, with its environment passed as
arguments: the configured global `app.api_key`, the managed key store
(`api_key_manager.get_all_keys()`) and its validator
(`api_key_manager.validate_key`, both from a service module that is not
among the repository's source files, abstracted as a list and a function),
and the optional Bearer credential. An HTTP 401 is `Except.error 401`. -/
def verify_api_key (api_key : String) (managed_keys : List KeyInfo)
    (validate : String → Option KeyInfo) (auth : Option String) :
    Except Nat KeyInfo :=
  match auth with
  | none =>
    if api_key = "" ∧ managed_keys = [] then Except.ok anonymousKeyInfo
    else Except.error 401
  | some token =>
    match validate token with
    | none => Except.error 401
    | some key_info => Except.ok key_info

/-- C8: `verify_api_key` raises 401 exactly when (a) no Bearer credential
is presented while a global api_key is configured or a managed key exists,
or (b) a credential is presented that validates against no managed key;
and in the remaining no-credential case it grants anonymous access with
is_admin = True. -/
theorem claim_C8_verify_api_key (api_key : String)
    (managed_keys : List KeyInfo) (validate : String → Option KeyInfo)
    (auth : Option String) :
    (verify_api_key api_key managed_keys validate auth = Except.error 401 ↔
      (auth = none ∧ (api_key ≠ "" ∨ managed_keys ≠ [])) ∨
      (∃ t, auth = some t ∧ validate t = none)) ∧
    (auth = none → api_key = "" → managed_keys = [] →
      verify_api_key api_key managed_keys validate auth
        = Except.ok anonymousKeyInfo ∧ anonymousKeyInfo.is_admin = true) := by
  cases auth with
  | none =>
    by_cases hc : api_key = "" ∧ managed_keys = []
    · constructor
      · simp [verify_api_key, hc, hc.1, hc.2]
      · intro _ _ _
        exact ⟨by simp [verify_api_key, hc], rfl⟩
    · constructor
      · simp only [verify_api_key, if_neg hc]
        constructor
        · intro _
          exact Or.inl ⟨by simp, by tauto⟩
        · intro _
          simp
      · intro _ h1 h2
        exact absurd ⟨h1, h2⟩ hc
  | some token =>
    cases hv : validate token with
    | none =>
      constructor
      · simp [verify_api_key, hv]
      · intro h
        cases h
    | some key_info =>
      constructor
      · simp only [verify_api_key, hv]
        constructor
        · intro h
          cases h
        · rintro (⟨h, _⟩ | ⟨t, ht, hvt⟩)
          · cases h
          · rw [Option.some_inj] at ht
            rw [ht] at hv
            rw [hv] at hvt
            cases hvt
      · intro h
        cases h

/-- Witness for C8 at a concrete input: with no global key, no managed
keys and no credential, access is granted anonymously as admin. -/
theorem claim_C8_witness :
    verify_api_key "" [] (fun _ => none) none = Except.ok anonymousKeyInfo ∧
    anonymousKeyInfo.is_admin = true :=
  (claim_C8_verify_api_key "" [] (fun _ => none) none).2 rfl rfl rfl

/-- Python's `str.strip()`, modelled on the character list: drop leading
and trailing whitespace (the values involved use ASCII whitespace). -/
def str_strip (s : String) : String :=
  ⟨((s.data.dropWhile Char.isWhitespace).reverse.dropWhile
      Char.isWhitespace).reverse⟩

/-- What the Workers-compatible login endpoint returns: the success flag
and, on success, the token handed back (the configured `app.api_key`, or
the first managed key when that is empty — the managed key store lives in
a service module outside the repository's source files and is abstracted
as a list of key strings). -/
structure LoginResp where
  success : Bool
  token : Option String
deriving DecidableEq, Repr

/-- `worker_admin_login` of `admin.py`: strip the submitted username and
password and the configured `app.admin_username` and `app.app_key`; reject
when a configured username and a non-empty submitted username disagree;
reject when the configured app_key strips to empty or the password does
not match it; otherwise succeed with the api_key (or first managed key) as
session token. -/
def worker_admin_login (data_username data_password : String)
    (admin_username_cfg app_key_cfg api_key_cfg : String)
    (managed_keys : List String) : LoginResp :=
  let username := str_strip data_username
  let password := str_strip data_password
  let expected_user := str_strip admin_username_cfg
  let expected_pass := str_strip app_key_cfg
  if expected_user ≠ "" ∧ username ≠ "" ∧ username ≠ expected_user then
    { success := false, token := none }
  else if expected_pass = "" ∨ password ≠ expected_pass then
    { success := false, token := none }
  else
    let api_key := if api_key_cfg ≠ "" then api_key_cfg
      else managed_keys.headD ""
    { success := true, token := some api_key }

/-- C9 counterexample: with the non-empty configured admin username
"admin", the non-empty configured app_key " " (a blank), an empty
submitted username and a password equal to the configured app_key, the
login fails — because both password and app_key are stripped, the app_key
strips to empty and the endpoint rejects every request — whereas the
claim says this request returns success. -/
theorem claim_C9_counterexample :
    (" " : String) ≠ "" ∧ ("admin" : String) ≠ "" ∧
    (worker_admin_login "" " " "admin" " " "" []).success = false :=
  ⟨by decide, by decide, by decide⟩

/-- C9 amended: the username comparison is skipped whenever the submitted
username is empty — for every configured admin username, a login with an
empty username and a password equal to a configured app_key that is
non-empty after stripping whitespace succeeds; and if the configured
app_key is empty after stripping (in particular, if it is empty), every
login fails regardless of credentials. -/
theorem claim_C9_login_rules :
    (∀ admin_user app_key api_key data_password : String,
      ∀ keys : List String,
      str_strip app_key ≠ "" → data_password = app_key →
      (worker_admin_login "" data_password admin_user app_key api_key
        keys).success = true) ∧
    (∀ admin_user app_key api_key data_user data_password : String,
      ∀ keys : List String,
      str_strip app_key = "" →
      (worker_admin_login data_user data_password admin_user app_key api_key
        keys).success = false) := by
  constructor
  · intro admin_user app_key api_key data_password keys hpass hdp
    subst hdp
    have htrim : str_strip "" = "" := rfl
    simp [worker_admin_login, htrim, hpass]
  · intro admin_user app_key api_key data_user data_password keys hempty
    simp only [worker_admin_login]
    by_cases h1 : str_strip admin_user ≠ "" ∧ str_strip data_user ≠ "" ∧
        str_strip data_user ≠ str_strip admin_user
    · rw [if_pos h1]
    · rw [if_neg h1, if_pos (Or.inl hempty)]

/-- Witness for C9 at concrete inputs: an empty username with the correct
password logs in even though the configured username is non-empty, and a
configured empty app_key rejects a well-formed login. -/
theorem claim_C9_witness :
    (worker_admin_login "" "sekret" "admin" "sekret" "" []).success = true ∧
    (worker_admin_login "admin" "x" "admin" "" "" []).success = false :=
  ⟨claim_C9_login_rules.1 "admin" "sekret" "" "sekret" [] (by decide) rfl,
   claim_C9_login_rules.2 "admin" "" "" "admin" "x" [] (by decide)⟩
